import Mathlib

/-!
Verification development for the abs_kobo_sync bridge (Rust).

Shallow embedding conventions:
* Rust `String` / `&str` values are Lean `String`s; where the byte level
  matters (base64, JSON, MD5) bytes are `List Nat` with every entry `< 256`,
  produced from strings via UTF-8 (`String.utf8EncodeChar`).
* `chrono::DateTime<Utc>` is an `Instant := Int`, the number of nanoseconds
  since the UNIX epoch; comparison of instants is `Int` order, matching
  chrono order on timeline instants.
* `uuid::Uuid` is a `Nat` below `2 ^ 128`, the 16 bytes read big-endian.
* External library calls whose text grammar is out of scope (serde_json
  parsing, chrono RFC 3339 parsing) enter as components of an `ExtEnv`
  record; concrete executable reference implementations are provided below
  and used by the witnesses.  `Utc::now()` is the `now` field of `ExtEnv`.
* A Rust panic is modelled by `Option`: a function that can panic returns
  `none` exactly on the panicking inputs.
-/

namespace AbsKoboSync

/-- Nanoseconds since the UNIX epoch, modelling `chrono::DateTime<Utc>`. -/
abbrev Instant := Int

/-- `src/kobo_api/services/sync.rs` `timestamp_to_utc`: seconds-since-epoch to
a UTC instant (`Utc.timestamp_opt(timestamp, 0).unwrap()`); chrono's range
check (which only fails around year ±262000) is elided in the model. -/
def timestamp_to_utc (timestamp : Int) : Instant :=
  timestamp * 1000000000

/-- The JSON value model used for `serde_json::Value`.  Numbers are modelled
as integers (the token codec only ever reads string fields, so the numeric
representation is irrelevant to every claim). -/
inductive Json where
  | null : Json
  | bool (b : Bool) : Json
  | num (n : Int) : Json
  | str (s : String) : Json
  | arr (elems : List Json) : Json
  | obj (fields : List (String × Json)) : Json

/-- `serde_json::Value::get(key)` on an object: the value stored under `key`
(objects built by this development have pairwise distinct keys). -/
def Json.get (j : Json) (key : String) : Option Json :=
  match j with
  | .obj fields => (fields.find? (fun kv => kv.1 == key)).map (·.2)
  | _ => none

/-- `serde_json::Value::as_str`. -/
def Json.as_str (j : Json) : Option String :=
  match j with
  | .str s => some s
  | _ => none

/-! ## Base64 (the `base64` crate's `BASE64_STANDARD` engine)

Standard alphabet, padding required and canonical, non-zero trailing bits
rejected - the defaults of `base64::prelude::BASE64_STANDARD`. -/

/-- Value of a base64 symbol character, `none` for non-symbols. -/
def b64ValOfChar (c : Char) : Option Nat :=
  let n := c.toNat
  if 65 ≤ n ∧ n ≤ 90 then some (n - 65)
  else if 97 ≤ n ∧ n ≤ 122 then some (n - 71)
  else if 48 ≤ n ∧ n ≤ 57 then some (n + 4)
  else if n = 43 then some 62
  else if n = 47 then some 63
  else none

/-- Symbol character of a 6-bit value. -/
def b64CharOfVal (v : Nat) : Char :=
  if v < 26 then Char.ofNat (v + 65)
  else if v < 52 then Char.ofNat (v + 71)
  else if v < 62 then Char.ofNat (v - 4)
  else if v = 62 then '+'
  else '/'

/-- Base64-encode a byte list, three input bytes per four output symbols,
with canonical `=` padding. -/
def b64EncodeGroups : List Nat → List Char
  | [] => []
  | [b1] =>
      [b64CharOfVal (b1 / 4), b64CharOfVal (b1 % 4 * 16), '=', '=']
  | [b1, b2] =>
      [b64CharOfVal (b1 / 4), b64CharOfVal (b1 % 4 * 16 + b2 / 16),
       b64CharOfVal (b2 % 16 * 4), '=']
  | b1 :: b2 :: b3 :: rest =>
      b64CharOfVal (b1 / 4) :: b64CharOfVal (b1 % 4 * 16 + b2 / 16) ::
      b64CharOfVal (b2 % 16 * 4 + b3 / 64) :: b64CharOfVal (b3 % 64) ::
      b64EncodeGroups rest

/-- Base64-decode a character list: groups of four symbols, `=` padding only
in the final group, non-canonical trailing bits rejected. -/
def b64DecodeGroups : List Char → Option (List Nat)
  | [] => some []
  | c1 :: c2 :: c3 :: c4 :: rest =>
      match b64ValOfChar c1, b64ValOfChar c2 with
      | some v1, some v2 =>
          if c3 = '=' then
            if c4 = '=' ∧ rest = [] then
              if v2 % 16 = 0 then some [v1 * 4 + v2 / 16] else none
            else none
          else
            match b64ValOfChar c3 with
            | some v3 =>
                if c4 = '=' then
                  if rest = [] ∧ v3 % 4 = 0 then
                    some [v1 * 4 + v2 / 16, v2 % 16 * 16 + v3 / 4]
                  else none
                else
                  match b64ValOfChar c4 with
                  | some v4 =>
                      (b64DecodeGroups rest).map
                        (fun tail =>
                          (v1 * 4 + v2 / 16) :: (v2 % 16 * 16 + v3 / 4) ::
                          (v3 % 4 * 64 + v4) :: tail)
                  | none => none
            | none => none
      | _, _ => none
  | _ => none

/-- `BASE64_STANDARD.decode` on a string (header values are ASCII; a
non-ASCII character is not a base64 symbol and is rejected either way). -/
def b64DecodeStr (s : String) : Option (List Nat) :=
  b64DecodeGroups s.data

/-- `BASE64_STANDARD.encode` to a string. -/
def b64EncodeStr (bytes : List Nat) : String :=
  String.mk (b64EncodeGroups bytes)

/-! ## External collaborators -/

/-- External library functions and ambient state the sync code calls into:
`serde_json::from_slice::<Value>` (UTF-8 validation included, `none` on any
parse failure), `chrono::DateTime::parse_from_rfc3339` converted to UTC
(`none` on parse failure), and `Utc::now()`. -/
structure ExtEnv where
  jsonParse : List Nat → Option Json
  parseRfc3339 : String → Option Instant
  now : Instant

/-! ## Sync token decoding (`src/kobo_api/routes.rs`) -/

/-- `KoboFullTokenDetails` of `routes.rs`. -/
structure KoboFullTokenDetails where
  books_last_modified : Option Instant
  books_last_created : Option Instant
  archive_last_modified : Option Instant
  reading_state_last_modified : Option Instant
  tags_last_modified : Option Instant
deriving DecidableEq

/-- `KoboSyncToken` of `routes.rs`. -/
inductive KoboSyncToken where
  | NoToken : KoboSyncToken
  | OnlyRawToken (raw_kobo_store_token : String) : KoboSyncToken
  | FullToken (raw_kobo_store_token : String)
      (details : KoboFullTokenDetails) : KoboSyncToken
deriving DecidableEq

/-- The two `poem::Error::from_string` failures of
`KoboSyncToken::from_request`; `message` is the string those errors display.
Both are constructed with status 400 in `from_request`, but the sync service
maps any of them to its 403 response (see `SyncService.sync`). -/
inductive TokenError where
  | invalidFormat : TokenError
  | invalidJson : TokenError
deriving DecidableEq

/-- The display text of a token decode error. -/
def TokenError.message : TokenError → String
  | .invalidFormat => "Invalid Kobo sync token format"
  | .invalidJson => "Invalid Kobo sync token JSON format"

/-- One watermark field of the token JSON:
`values.get(key).and_then(as_str).and_then(parse_from_rfc3339.ok)`,
converted to UTC. -/
def readTokenInstant (env : ExtEnv) (values : Json) (key : String) :
    Option Instant :=
  ((values.get key).bind Json.as_str).bind env.parseRfc3339

/-- `KoboSyncToken::from_request` of `routes.rs`.  Rust
`token.contains(".")` is single-character substring search, i.e. membership
of the character `.` in the string. -/
def KoboSyncToken.from_request (env : ExtEnv) (token : String) :
    Except TokenError KoboSyncToken :=
  if token.data.contains '.' then
    .ok (.OnlyRawToken token)
  else
    match b64DecodeStr token with
    | none => .error .invalidFormat
    | some json =>
      match env.jsonParse json with
      | none => .error .invalidJson
      | some values =>
        match (values.get "raw_kobo_store_token").bind Json.as_str with
        | none => .ok .NoToken
        | some raw_kobo_store_token =>
          .ok (.FullToken raw_kobo_store_token
            { books_last_modified :=
                readTokenInstant env values "books_last_modified"
              books_last_created :=
                readTokenInstant env values "books_last_created"
              archive_last_modified :=
                readTokenInstant env values "archive_last_modified"
              reading_state_last_modified :=
                readTokenInstant env values "reading_state_last_modified"
              tags_last_modified :=
                readTokenInstant env values "tags_last_modified" })

/-! ## MD5 and version-3 UUIDs (the `uuid` crate's `Uuid::new_v3`)

A faithful executable model of RFC 1321 MD5, used by `Uuid::new_v3` which
the sync service applies to series names. -/

/-- The 64 MD5 sine-derived round constants. -/
def md5K : List Nat :=
  [0xd76aa478, 0xe8c7b756, 0x242070db, 0xc1bdceee,
   0xf57c0faf, 0x4787c62a, 0xa8304613, 0xfd469501,
   0x698098d8, 0x8b44f7af, 0xffff5bb1, 0x895cd7be,
   0x6b901122, 0xfd987193, 0xa679438e, 0x49b40821,
   0xf61e2562, 0xc040b340, 0x265e5a51, 0xe9b6c7aa,
   0xd62f105d, 0x02441453, 0xd8a1e681, 0xe7d3fbc8,
   0x21e1cde6, 0xc33707d6, 0xf4d50d87, 0x455a14ed,
   0xa9e3e905, 0xfcefa3f8, 0x676f02d9, 0x8d2a4c8a,
   0xfffa3942, 0x8771f681, 0x6d9d6122, 0xfde5380c,
   0xa4beea44, 0x4bdecfa9, 0xf6bb4b60, 0xbebfbc70,
   0x289b7ec6, 0xeaa127fa, 0xd4ef3085, 0x04881d05,
   0xd9d4d039, 0xe6db99e5, 0x1fa27cf8, 0xc4ac5665,
   0xf4292244, 0x432aff97, 0xab9423a7, 0xfc93a039,
   0x655b59c3, 0x8f0ccc92, 0xffeff47d, 0x85845dd1,
   0x6fa87e4f, 0xfe2ce6e0, 0xa3014314, 0x4e0811a1,
   0xf7537e82, 0xbd3af235, 0x2ad7d2bb, 0xeb86d391]

/-- The 64 MD5 per-round left-rotation amounts. -/
def md5S : List Nat :=
  [7, 12, 17, 22, 7, 12, 17, 22, 7, 12, 17, 22, 7, 12, 17, 22,
   5, 9, 14, 20, 5, 9, 14, 20, 5, 9, 14, 20, 5, 9, 14, 20,
   4, 11, 16, 23, 4, 11, 16, 23, 4, 11, 16, 23, 4, 11, 16, 23,
   6, 10, 15, 21, 6, 10, 15, 21, 6, 10, 15, 21, 6, 10, 15, 21]

/-- 32-bit left rotation. -/
def rotl32 (x s : Nat) : Nat :=
  (x * 2 ^ s + x / 2 ^ (32 - s)) % 2 ^ 32

/-- The MD5 nonlinear function of round `i` (32-bit complement written as
subtraction from the all-ones word). -/
def md5F (i b c d : Nat) : Nat :=
  if i < 16 then (b &&& c) ||| ((2 ^ 32 - 1 - b) &&& d)
  else if i < 32 then (d &&& b) ||| ((2 ^ 32 - 1 - d) &&& c)
  else if i < 48 then b ^^^ c ^^^ d
  else c ^^^ (b ||| (2 ^ 32 - 1 - d))

/-- The MD5 message-word index of round `i`. -/
def md5G (i : Nat) : Nat :=
  if i < 16 then i
  else if i < 32 then (5 * i + 1) % 16
  else if i < 48 then (3 * i + 5) % 16
  else 7 * i % 16

/-- `k` as `n` little-endian bytes. -/
def leBytes (n k : Nat) : List Nat :=
  (List.range n).map (fun i => k / 2 ^ (8 * i) % 256)

/-- MD5 padding: a `0x80` byte, zeros to 56 mod 64, then the bit length as
a 64-bit little-endian quantity. -/
def md5Pad (msg : List Nat) : List Nat :=
  msg ++ 0x80 :: List.replicate ((119 - msg.length % 64) % 64) 0 ++
    leBytes 8 (msg.length * 8 % 2 ^ 64)

/-- The sixteen little-endian 32-bit words of one 64-byte block. -/
def md5Words (block : List Nat) : List Nat :=
  (List.range 16).map (fun j =>
    block.getD (4 * j) 0 + block.getD (4 * j + 1) 0 * 2 ^ 8 +
    block.getD (4 * j + 2) 0 * 2 ^ 16 + block.getD (4 * j + 3) 0 * 2 ^ 24)

/-- One of the 64 MD5 rounds, rotating the register quadruple. -/
def md5Round (words : List Nat) (st : Nat × Nat × Nat × Nat) (i : Nat) :
    Nat × Nat × Nat × Nat :=
  let (a, b, c, d) := st
  let rotated := rotl32
    ((a + md5F i b c d + (md5K.getD i 0) + words.getD (md5G i) 0) % 2 ^ 32)
    (md5S.getD i 0)
  (d, (b + rotated) % 2 ^ 32, b, c)

/-- Absorb one 64-byte block into the MD5 state. -/
def md5Block (st : Nat × Nat × Nat × Nat) (block : List Nat) :
    Nat × Nat × Nat × Nat :=
  let (a0, b0, c0, d0) := st
  let words := md5Words block
  let (a, b, c, d) := (List.range 64).foldl (md5Round words) (a0, b0, c0, d0)
  ((a0 + a) % 2 ^ 32, (b0 + b) % 2 ^ 32, (c0 + c) % 2 ^ 32, (d0 + d) % 2 ^ 32)

/-- Absorb a padded message 64 bytes at a time. -/
def md5Blocks (st : Nat × Nat × Nat × Nat) (msg : List Nat) :
    Nat × Nat × Nat × Nat :=
  if h : msg = [] then st
  else md5Blocks (md5Block st (msg.take 64)) (msg.drop 64)
termination_by msg.length
decreasing_by
  simp only [List.length_drop]
  have : 0 < msg.length := List.length_pos.mpr h
  omega

/-- The 16 MD5 digest bytes of a byte-list message. -/
def md5Bytes (msg : List Nat) : List Nat :=
  let (a, b, c, d) :=
    md5Blocks (0x67452301, 0xefcdab89, 0x98badcfe, 0x10325476) (md5Pad msg)
  leBytes 4 a ++ leBytes 4 b ++ leBytes 4 c ++ leBytes 4 d

/-- A byte list read as a big-endian natural number. -/
def bytesToNatBE (bytes : List Nat) : Nat :=
  bytes.foldl (fun acc b => acc * 256 + b) 0

/-- The 16 big-endian bytes of a 128-bit quantity. -/
def natToBytesBE16 (n : Nat) : List Nat :=
  (List.range 16).map (fun i => n / 2 ^ (8 * (15 - i)) % 256)

/-- `uuid::Uuid::NAMESPACE_DNS`. -/
def NAMESPACE_DNS : Nat := 0x6ba7b8109dad11d180b400c04fd430c8

/-- Overwrite the UUID version nibble (bits 76-79 big-endian) with 3. -/
def uuidSetVersion3 (h : Nat) : Nat :=
  h / 2 ^ 80 * 2 ^ 80 + 3 * 2 ^ 76 + h % 2 ^ 76

/-- Overwrite the UUID variant bits (bits 62-63) with binary 10. -/
def uuidSetVariantRfc4122 (h : Nat) : Nat :=
  h / 2 ^ 64 * 2 ^ 64 + 2 * 2 ^ 62 + h % 2 ^ 62

/-- UTF-8 bytes of a string (`str::as_bytes`). -/
def strUtf8 (s : String) : List Nat :=
  s.data.flatMap (fun c => (String.utf8EncodeChar c).map UInt8.toNat)

/-- `uuid::Uuid::new_v3(namespace, name)`: MD5 of the namespace bytes
followed by the name bytes, with version and variant bits overwritten. -/
def uuidNewV3 (ns : Nat) (name : List Nat) : Nat :=
  uuidSetVariantRfc4122 (uuidSetVersion3
    (bytesToNatBE (md5Bytes (natToBytesBE16 ns ++ name))))

/-! ## Remote library data model (`src/abs_client/mod.rs`)

Only the fields the sync service reads are carried; the remaining
deserialization fields of the Rust structs never influence the sync
response. -/

namespace AbsClient

/-- `abs_client::BookMetadata`, restricted to the fields read by sync. -/
structure BookMetadata where
  title : Option String
  author_name : Option String
  series_name : Option String
  description : Option String
  language : Option String
  published_date : Option String
deriving DecidableEq

/-- `abs_client::Media`, restricted to the fields read by sync. -/
structure Media where
  ebook_format : Option String
  metadata : BookMetadata
deriving DecidableEq

/-- `abs_client::LibraryItem`, restricted to the fields read by sync. -/
structure LibraryItem where
  id : Nat
  added_at : Int
  updated_at : Int
  media : Media
deriving DecidableEq

/-- `abs_client::LibraryItemsResponse`, restricted to `results`. -/
structure LibraryItemsResponse where
  results : List LibraryItem
deriving DecidableEq

end AbsClient

/-! ## Persisted sync state (`src/migration`)

The `book_sync` table created by
`m20250820_115913_create_book_sync_table.rs`: one row per delivered
(device, item) pair.  The table is created by the migrations but never
read or written by `SyncService::sync`. -/

/-- A row of the `book_sync` table. -/
structure SyncRecord where
  id : Nat
  device_id : Nat
  abs_item_id : String
  timestamp : Instant
deriving DecidableEq

/-! ## Device-facing entitlement shapes (`src/kobo_api/services/sync.rs`)

Constant `f64` fields (`1f64`, `0.0`) are modelled as the corresponding
integers; no claim concerns floating-point behaviour. -/

/-- Lowercase hex digit. -/
def hexDigit (n : Nat) : Char :=
  if n < 10 then Char.ofNat (48 + n) else Char.ofNat (87 + n)

/-- `uuid::Uuid` hyphenated lowercase display, as used by `format!`. -/
def uuidToString (u : Nat) : String :=
  let d := (List.range 32).map (fun i => hexDigit (u / 16 ^ (31 - i) % 16))
  String.mk (d.take 8 ++ '-' :: (d.drop 8).take 4 ++ '-' ::
    (d.drop 12).take 4 ++ '-' :: (d.drop 16).take 4 ++ '-' :: d.drop 20)

/-- `BookFormatDto` of `kobo_api/models`. -/
inductive BookFormatDto where
  | Epub : BookFormatDto
  | Kepub : BookFormatDto
deriving DecidableEq

/-- The `ToString` impl of `BookFormatDto`. -/
def BookFormatDto.to_string : BookFormatDto → String
  | .Epub => "epub"
  | .Kepub => "kepub"

/-- `ActivePeriod`; the Rust field is named `from`, a Lean keyword, hence
`from_`. -/
structure ActivePeriod where
  from_ : Instant
deriving DecidableEq

/-- `BookEntitlement` of `sync.rs`. -/
structure BookEntitlement where
  accessibility : String
  active_period : ActivePeriod
  created : Instant
  cross_revision_id : Nat
  id : Nat
  is_removed : Bool
  is_hidden_from_archive : Bool
  is_locked : Bool
  last_modified : Instant
  origin_category : String
  revision_id : Nat
  status : String
deriving DecidableEq

/-- `ContentDisplayPrice` (`0.0` modelled as `0`). -/
structure ContentDisplayPrice where
  currency_code : String
  total_amount : Int
deriving DecidableEq

/-- The `Default` impl of `ContentDisplayPrice`. -/
def ContentDisplayPrice.default : ContentDisplayPrice :=
  { currency_code := "USD", total_amount := 0 }

/-- `CurrentLoveDisplayPrice` (derived `Default` is zero). -/
structure CurrentLoveDisplayPrice where
  total_amount : Int
deriving DecidableEq

/-- `KoboSyncedContributorRole`. -/
structure KoboSyncedContributorRole where
  name : String
deriving DecidableEq

/-- `KoboSyncedSeries` (`1f64` modelled as `1`). -/
structure KoboSyncedSeries where
  name : String
  number : Int
  number_float : Int
  id : Nat
deriving DecidableEq

/-- `BookMetadata` of `sync.rs` (the `PhoneticPronounciations` payload is an
empty struct and is elided). -/
structure BookMetadata where
  categories : List Nat
  cover_image_id : Nat
  cross_revision_id : Nat
  current_display_price : ContentDisplayPrice
  current_love_display_price : CurrentLoveDisplayPrice
  description : Option String
  download_urls : List String
  entitlement_id : Nat
  external_ids : List Nat
  genre : Nat
  is_eligible_for_kobo_love : Bool
  is_internet_archive : Bool
  is_pre_order : Bool
  is_social_enabled : Bool
  language : String
  publication_date : Instant
  revision_id : Nat
  title : String
  work_id : Nat
  contributors : Option (List String)
  contributor_roles : Option (List KoboSyncedContributorRole)
  series : KoboSyncedSeries
deriving DecidableEq

/-- `KoboSyncedBook`.  `reading_state` is always `None` in `sync.rs` and its
payload type is never constructed, so the payload is modelled as `Unit`. -/
structure KoboSyncedBook where
  book_entitlement : BookEntitlement
  book_metadata : BookMetadata
  reading_state : Option Unit
deriving DecidableEq

/-- `KoboSyncEntitlement` of `sync.rs`. -/
inductive KoboSyncEntitlement where
  | NewEntitlement (new_entitlement : KoboSyncedBook) : KoboSyncEntitlement
  | ChangedEntitlement (changed_entitlement : KoboSyncedBook) :
      KoboSyncEntitlement
deriving DecidableEq

/-- `ErrorDto` of `kobo_api/models`. -/
structure ErrorDto where
  message : String
deriving DecidableEq

/-- `SyncResponseDto`.  `Ok` carries the entitlement list and the three
optional response headers exactly as `SyncService::sync` constructs it
(`X-Kobo-SyncToken`, `X-Kobo-Sync` i.e. the sync-continue flag, and
`X-Kobo-Sync-Mode`); every `Ok` produced by `sync` leaves all three
absent. -/
inductive SyncResponseDto where
  | Ok (entitlements : List KoboSyncEntitlement)
      (sync_token sync_continue sync_mode : Option String) : SyncResponseDto
  | Unauthorized (body : ErrorDto) : SyncResponseDto
  | Forbidden (body : ErrorDto) : SyncResponseDto
  | BadGateway (body : ErrorDto) : SyncResponseDto
deriving DecidableEq

/-! ## The sync service (`src/kobo_api/services/sync.rs`)

`SyncService` holds only injected collaborators, so its methods are
modelled as functions taking the outcome of the one remote call
(`abs_client.get_library_items`) as an explicit `Except` argument. -/

/-- `SyncService::SYNC_ITEM_LIMIT`. -/
def SYNC_ITEM_LIMIT : Int := 100

/-- `SyncService::get_download_url_for_book`. -/
def get_download_url_for_book (book_id : Nat) (format : BookFormatDto) :
    String :=
  "https://example.com/download/" ++ uuidToString book_id ++ "/" ++
    format.to_string

/-- `SyncService::collect_all_books`: filters the remote listing.
`_auth_token` is ignored by the source.  An item passes when it is recent
(its `added_at`, converted to an instant, is strictly after the
`books_last_modified` watermark - or the watermark is absent) and its
ebook format is exactly `epub`. -/
def collect_all_books (_auth_token : String)
    (books_last_modified : Option Instant)
    (absResult : Except String AbsClient.LibraryItemsResponse) :
    Except String (List AbsClient.LibraryItem) :=
  match absResult with
  | .error e => .error e
  | .ok books =>
    .ok (books.results.filter (fun item =>
      let added_date := timestamp_to_utc item.added_at
      let is_recent :=
        match books_last_modified with
        | some last_modified => decide (added_date > last_modified)
        | none => true
      let has_epub := item.media.ebook_format == some "epub"
      is_recent && has_epub))

/-- The RFC 3339 string substituted when `published_date` is absent. -/
def epochRfc3339 : String := "1970-01-01T00:00:00Z"

/-- The series-id derivation of `SyncService::sync` (lines 241-250):
`Uuid::new_v3(&Uuid::NAMESPACE_DNS, series_name.as_bytes())` on the series
name (the empty string when the item has no series). -/
def seriesUuidOfName (name : String) : Nat :=
  uuidNewV3 NAMESPACE_DNS (strUtf8 name)

/-- The entitlement materialization closure of `SyncService::sync`
(lines 155-256), building one `KoboSyncedBook` from one remote item.
Returns `none` exactly when the source panics: `publication_date` is
`DateTime::parse_from_rfc3339(published_date.unwrap_or(epoch)).unwrap()`,
which panics when a present `published_date` fails to parse. -/
def mapBook (env : ExtEnv) (result : AbsClient.LibraryItem) :
    Option KoboSyncedBook :=
  let download_urls := [get_download_url_for_book result.id .Kepub]
  let reading_state : Option Unit := none
  match env.parseRfc3339
      (result.media.metadata.published_date.getD epochRfc3339) with
  | none => none
  | some publication_date =>
    some
      { book_entitlement :=
          { accessibility := "Full"
            active_period := { from_ := env.now }
            created := timestamp_to_utc result.added_at
            cross_revision_id := result.id
            id := result.id
            is_removed := false
            is_hidden_from_archive := false
            is_locked := false
            last_modified := timestamp_to_utc result.updated_at
            origin_category := "Imported"
            revision_id := result.id
            status := "Active" }
        book_metadata :=
          { categories := [1]
            cover_image_id := result.id
            cross_revision_id := result.id
            current_display_price := ContentDisplayPrice.default
            current_love_display_price := { total_amount := 0 }
            description := result.media.metadata.description
            download_urls := download_urls
            entitlement_id := result.id
            external_ids := []
            genre := 1
            is_eligible_for_kobo_love := false
            is_internet_archive := false
            is_pre_order := false
            is_social_enabled := true
            language := result.media.metadata.language.getD "en"
            publication_date := publication_date
            revision_id := result.id
            title := result.media.metadata.title.getD "Untitled"
            work_id := result.id
            contributors :=
              result.media.metadata.author_name.map
                (fun author => (author.splitOn ",").map (·.trim))
            contributor_roles :=
              result.media.metadata.author_name.map
                (fun author => (author.splitOn ",").map
                  (fun s => { name := s.trim }))
            series :=
              { name := result.media.metadata.series_name.getD ""
                number := 1
                number_float := 1
                id := seriesUuidOfName
                  (result.media.metadata.series_name.getD "") } }
        reading_state := reading_state }

/-- Lines 121-153 and 155-267 of `SyncService::sync`, after the token has
been decoded and classified: destructure the watermark details (including
the dead `if false` rebinding kept from the source), collect the remote
books, materialize entitlements (every one wrapped as `NewEntitlement`),
and answer `Ok` with all three response headers `None`. -/
def syncProceed (env : ExtEnv) (auth_token : String)
    (token_details : KoboFullTokenDetails)
    (absResult : Except String AbsClient.LibraryItemsResponse) :
    Option SyncResponseDto :=
  let details :=
    if false then
      { books_last_modified := none
        books_last_created := none
        reading_state_last_modified := none
        archive_last_modified := token_details.archive_last_modified
        tags_last_modified := token_details.tags_last_modified :
        KoboFullTokenDetails }
    else token_details
  match collect_all_books auth_token details.books_last_modified absResult with
  | .error e =>
      some (.BadGateway { message := "Failed to collect books for sync: " ++ e })
  | .ok sync_results =>
    match sync_results.mapM (mapBook env) with
    | none => none
    | some books =>
      some (.Ok (books.map (fun b => .NewEntitlement b)) none none none)

/-- `SyncService::sync`: decode the token (403 on decode failure, 401 on
`NoToken`), treat a raw-only token as all-absent watermarks, then proceed.
`none` models a panic while materializing entitlements. -/
def sync (env : ExtEnv) (auth_token : String) (raw_kobo_sync_token : String)
    (absResult : Except String AbsClient.LibraryItemsResponse) :
    Option SyncResponseDto :=
  match KoboSyncToken.from_request env raw_kobo_sync_token with
  | .error e =>
      some (.Forbidden
        { message := "Invalid Kobo Sync Token: " ++ e.message })
  | .ok .NoToken =>
      some (.Unauthorized { message := "Kobo Sync Token is required" })
  | .ok (.OnlyRawToken _) =>
      syncProceed env auth_token
        { books_last_modified := none
          books_last_created := none
          archive_last_modified := none
          reading_state_last_modified := none
          tags_last_modified := none } absResult
  | .ok (.FullToken _ details) =>
      syncProceed env auth_token details absResult

/-! ### Projections used to state claims about sync responses -/

/-- The entitlement list of a successful (200) sync outcome. -/
def syncOkEntitlements : Option SyncResponseDto →
    Option (List KoboSyncEntitlement)
  | some (.Ok entitlements _ _ _) => some entitlements
  | _ => none

/-- The sync-continue (`X-Kobo-Sync`) header of a successful sync outcome. -/
def syncContinueHeader : Option SyncResponseDto → Option (Option String)
  | some (.Ok _ _ sync_continue _) => some sync_continue
  | _ => none

/-- Which union variant an emitted entitlement uses. -/
inductive EntKind where
  | new : EntKind
  | changed : EntKind
deriving DecidableEq

/-- Variant of an emitted entitlement. -/
def entKind : KoboSyncEntitlement → EntKind
  | .NewEntitlement _ => .new
  | .ChangedEntitlement _ => .changed

/-- The remote item id an emitted entitlement is about. -/
def entItemId : KoboSyncEntitlement → Nat
  | .NewEntitlement b => b.book_entitlement.id
  | .ChangedEntitlement b => b.book_entitlement.id

/-! ## Concrete reference codecs

Executable models of the external text codecs (`serde_json`, chrono's
RFC 3339 reader, and a JSON writer).  Theorems about the token codec are
stated for an arbitrary `ExtEnv`; these implementations instantiate the
environment in witnesses, so every hypothesis is discharged by actual
evaluation.  The JSON reader covers the subset exchanged by the token
codec: ASCII documents with objects, arrays, plain and escaped strings,
integers, booleans and null. -/

/-- JSON string escaping: quote, backslash and control characters. -/
def jsonEscape (s : String) : List Nat :=
  s.data.flatMap (fun c =>
    if c = '"' then [92, 34]
    else if c = '\\' then [92, 92]
    else if c.toNat < 32 then
      [92, 117, 48, 48, (hexDigit (c.toNat / 16)).toNat,
       (hexDigit (c.toNat % 16)).toNat]
    else (String.utf8EncodeChar c).map UInt8.toNat)

mutual

/-- Serialize a JSON value to UTF-8 bytes (compact form, keys in the order
stored). -/
def jsonSerialize : Json → List Nat
  | .null => strUtf8 "null"
  | .bool true => strUtf8 "true"
  | .bool false => strUtf8 "false"
  | .num n => (toString n).data.map Char.toNat
  | .str s => 34 :: (jsonEscape s ++ [34])
  | .arr elems => 91 :: (jsonSerializeElems elems ++ [93])
  | .obj fields => 123 :: (jsonSerializeMembers fields ++ [125])

/-- Comma-separated serialized array elements. -/
def jsonSerializeElems : List Json → List Nat
  | [] => []
  | [j] => jsonSerialize j
  | j :: rest => jsonSerialize j ++ 44 :: jsonSerializeElems rest

/-- Comma-separated serialized object members. -/
def jsonSerializeMembers : List (String × Json) → List Nat
  | [] => []
  | [(k, v)] => 34 :: (jsonEscape k ++ [34, 58] ++ jsonSerialize v)
  | (k, v) :: rest =>
      34 :: (jsonEscape k ++ [34, 58] ++ jsonSerialize v) ++
        44 :: jsonSerializeMembers rest

end

/-- JSON insignificant whitespace. -/
def skipWs (bytes : List Nat) : List Nat :=
  bytes.dropWhile (fun b => b = 32 ∨ b = 9 ∨ b = 10 ∨ b = 13)

/-- Read the remainder of a JSON string after the opening quote; ASCII
content with the simple escapes and BMP `\u` escapes. -/
def pStringChars : List Nat → Option (List Char × List Nat)
  | [] => none
  | 34 :: rest => some ([], rest)
  | 92 :: rest =>
      match rest with
      | 34 :: r => (pStringChars r).map (fun p => ('"' :: p.1, p.2))
      | 92 :: r => (pStringChars r).map (fun p => ('\\' :: p.1, p.2))
      | 47 :: r => (pStringChars r).map (fun p => ('/' :: p.1, p.2))
      | 98 :: r => (pStringChars r).map (fun p => (Char.ofNat 8 :: p.1, p.2))
      | 102 :: r => (pStringChars r).map (fun p => (Char.ofNat 12 :: p.1, p.2))
      | 110 :: r => (pStringChars r).map (fun p => ('\n' :: p.1, p.2))
      | 114 :: r => (pStringChars r).map (fun p => ('\r' :: p.1, p.2))
      | 116 :: r => (pStringChars r).map (fun p => ('\t' :: p.1, p.2))
      | _ => none
  | b :: rest =>
      if 32 ≤ b ∧ b < 128 then
        (pStringChars rest).map (fun p => (Char.ofNat b :: p.1, p.2))
      else none

/-- Decimal digit run to a natural number, with the rest of the input. -/
def pDigits (bytes : List Nat) : Option (Nat × List Nat) :=
  let digits := bytes.takeWhile (fun b => 48 ≤ b ∧ b ≤ 57)
  if digits = [] then none
  else some (digits.foldl (fun acc b => acc * 10 + (b - 48)) 0,
    bytes.drop digits.length)

/-- Read a JSON integer (fractions and exponents are outside the covered
subset and are rejected). -/
def pNumber (bytes : List Nat) : Option (Json × List Nat) :=
  let (neg, rest) :=
    match bytes with
    | 45 :: r => (true, r)
    | r => (false, r)
  match pDigits rest with
  | none => none
  | some (n, rest2) =>
    match rest2 with
    | 46 :: _ => none
    | 101 :: _ => none
    | 69 :: _ => none
    | _ => some (.num (if neg then -(n : Int) else (n : Int)), rest2)

/-- Read the members of a JSON object, parameterized by the value reader
(breaking the mutual recursion so that all reductions are structural). -/
def pMembersF (pv : List Nat → Option (Json × List Nat)) :
    Nat → List Nat → List (String × Json) → Option (Json × List Nat)
  | 0, _, _ => none
  | fuel + 1, bytes, acc =>
    match skipWs bytes with
    | 34 :: rest =>
      match pStringChars rest with
      | none => none
      | some (key, rest2) =>
        match skipWs rest2 with
        | 58 :: rest3 =>
          match pv rest3 with
          | none => none
          | some (v, rest4) =>
            match skipWs rest4 with
            | 44 :: rest5 =>
                pMembersF pv fuel rest5 (acc ++ [(String.mk key, v)])
            | 125 :: rest5 =>
                some (.obj (acc ++ [(String.mk key, v)]), rest5)
            | _ => none
        | _ => none
    | _ => none

/-- Read the elements of a JSON array, parameterized by the value
reader. -/
def pElemsF (pv : List Nat → Option (Json × List Nat)) :
    Nat → List Nat → List Json → Option (Json × List Nat)
  | 0, _, _ => none
  | fuel + 1, bytes, acc =>
    match pv bytes with
    | none => none
    | some (v, rest) =>
      match skipWs rest with
      | 44 :: rest2 => pElemsF pv fuel rest2 (acc ++ [v])
      | 93 :: rest2 => some (.arr (acc ++ [v]), rest2)
      | _ => none

/-- Read one JSON value (fuelled recursive descent). -/
def pValue : Nat → List Nat → Option (Json × List Nat)
  | 0, _ => none
  | fuel + 1, bytes =>
    match skipWs bytes with
    | 110 :: 117 :: 108 :: 108 :: rest => some (.null, rest)
    | 116 :: 114 :: 117 :: 101 :: rest => some (.bool true, rest)
    | 102 :: 97 :: 108 :: 115 :: 101 :: rest => some (.bool false, rest)
    | 34 :: rest =>
        (pStringChars rest).map (fun p => (.str (String.mk p.1), p.2))
    | 123 :: rest =>
        (match skipWs rest with
         | 125 :: rest2 => some (.obj [], rest2)
         | rest2 => pMembersF (fun bs => pValue fuel bs) fuel rest2 [])
    | 91 :: rest =>
        (match skipWs rest with
         | 93 :: rest2 => some (.arr [], rest2)
         | rest2 => pElemsF (fun bs => pValue fuel bs) fuel rest2 [])
    | bs => pNumber bs

/-- `serde_json::from_slice::<Value>` reference model: one JSON document
with nothing but whitespace after it. -/
def jsonParseBytes (bytes : List Nat) : Option Json :=
  match pValue (2 * bytes.length + 8) bytes with
  | some (v, rest) => if skipWs rest = [] then some v else none
  | none => none

/-! ### RFC 3339 (chrono reference model) -/

/-- Proleptic-Gregorian day count of a civil date (days since 1970-01-01);
the standard era-based algorithm, with truncating integer division as in
the C++ original. -/
def daysFromCivil (y m d : Int) : Int :=
  let y := if m ≤ 2 then y - 1 else y
  let era := (if 0 ≤ y then y else y - 399) / 400
  let yoe := y - era * 400
  let mp := if 2 < m then m - 3 else m + 9
  let doy := (153 * mp + 2) / 5 + d - 1
  let doe := yoe * 365 + yoe / 4 - yoe / 100 + doy
  era * 146097 + doe - 719468

/-- Civil date of a proleptic-Gregorian day count (inverse of
`daysFromCivil`). -/
def civilFromDays (z : Int) : Int × Int × Int :=
  let z := z + 719468
  let era := (if 0 ≤ z then z else z - 146096) / 146097
  let doe := z - era * 146097
  let yoe := (doe - doe / 1460 + doe / 36524 - doe / 146096) / 365
  let y := yoe + era * 400
  let doy := doe - (365 * yoe + yoe / 4 - yoe / 100)
  let mp := (5 * doy + 2) / 153
  let d := doy - (153 * mp + 2) / 5 + 1
  let m := if mp < 10 then mp + 3 else mp - 9
  (if m ≤ 2 then y + 1 else y, m, d)

/-- Gregorian leap year. -/
def isLeapYear (y : Int) : Bool :=
  (y % 4 = 0 ∧ y % 100 ≠ 0) ∨ y % 400 = 0

/-- Days in a month. -/
def daysInMonth (y m : Int) : Int :=
  if m = 2 then (if isLeapYear y then 29 else 28)
  else if m = 4 ∨ m = 6 ∨ m = 9 ∨ m = 11 then 30
  else 31

/-- Two ASCII digits to a number. -/
def twoDigits (c1 c2 : Char) : Option Nat :=
  if c1.isDigit ∧ c2.isDigit then
    some ((c1.toNat - 48) * 10 + (c2.toNat - 48))
  else none

/-- Fractional seconds: up to nine digits scaled to nanoseconds. -/
def fracNanos (digits : List Char) : Nat :=
  ((digits.take 9).foldl (fun acc c => acc * 10 + (c.toNat - 48)) 0) *
    10 ^ (9 - min 9 digits.length)

/-- `chrono::DateTime::parse_from_rfc3339` converted to UTC, as a
nanosecond instant; covers the grammar
`YYYY-MM-DDTHH:MM:SS(.f+)?(Z|+HH:MM|-HH:MM)` with case-insensitive
`T`/`Z` separators and field range validation (leap second 60 outside the
covered subset). -/
def rfc3339Parse (s : String) : Option Instant :=
  match s.data with
  | y1 :: y2 :: y3 :: y4 :: '-' :: m1 :: m2 :: '-' :: d1 :: d2 :: tSep ::
      h1 :: h2 :: ':' :: mi1 :: mi2 :: ':' :: s1 :: s2 :: rest =>
    if ¬(tSep = 'T' ∨ tSep = 't' ∨ tSep = ' ') then none
    else
      match twoDigits y1 y2, twoDigits y3 y4, twoDigits m1 m2,
          twoDigits d1 d2, twoDigits h1 h2, twoDigits mi1 mi2,
          twoDigits s1 s2 with
      | some yHi, some yLo, some mo, some dy, some hr, some mi, some sec =>
        let y : Int := (yHi * 100 + yLo : Nat)
        if ¬(1 ≤ (mo : Int) ∧ (mo : Int) ≤ 12) then none
        else if ¬(1 ≤ (dy : Int) ∧ (dy : Int) ≤ daysInMonth y mo) then none
        else if ¬(hr < 24 ∧ mi < 60 ∧ sec < 60) then none
        else
          let (nanos, afterFrac) :=
            match rest with
            | '.' :: fr =>
              let digits := fr.takeWhile Char.isDigit
              (fracNanos digits, fr.drop digits.length)
            | _ => (0, rest)
          let nanosOk : Bool :=
            match rest with
            | '.' :: fr => !(fr.takeWhile Char.isDigit).isEmpty
            | _ => true
          let offsetSecs : Option Int :=
            match afterFrac with
            | ['Z'] => some 0
            | ['z'] => some 0
            | sign :: o1 :: o2 :: ':' :: o3 :: o4 :: [] =>
              match twoDigits o1 o2, twoDigits o3 o4 with
              | some oh, some om =>
                if oh < 24 ∧ om < 60 then
                  let magnitude : Int := oh * 3600 + om * 60
                  if sign = '+' then some magnitude
                  else if sign = '-' then some (-magnitude)
                  else none
                else none
              | _, _ => none
            | _ => none
          match offsetSecs with
          | none => none
          | some off =>
            if nanosOk then
              some ((daysFromCivil y mo dy * 86400 + hr * 3600 + mi * 60 +
                sec - off) * 1000000000 + nanos)
            else none
      | _, _, _, _, _, _, _ => none
  | _ => none

/-- A natural number as zero-padded decimal digits of width `w`. -/
def padNat (w n : Nat) : List Char :=
  let digits := (Nat.toDigits 10 n)
  List.replicate (w - digits.length) '0' ++ digits

/-- Format a whole-second UTC instant as `YYYY-MM-DDTHH:MM:SSZ` (the
documented token resolution: whole seconds; defined for instants within
the four-digit-year range). -/
def rfc3339Format (i : Instant) : String :=
  let secsTotal := i / 1000000000
  let sod := secsTotal.emod 86400
  let days := (secsTotal - sod) / 86400
  let (y, mo, dy) := civilFromDays days
  String.mk (padNat 4 y.toNat ++ '-' :: padNat 2 mo.toNat ++ '-' ::
    padNat 2 dy.toNat ++ 'T' :: padNat 2 (sod / 3600).toNat ++ ':' ::
    padNat 2 (sod / 60 % 60).toNat ++ ':' :: padNat 2 (sod % 60).toNat ++
    ['Z'])

/-- The fully concrete collaborator environment used by witnesses. -/
def refEnv (now : Instant) : ExtEnv :=
  { jsonParse := jsonParseBytes
    parseRfc3339 := rfc3339Parse
    now := now }

/-- A collaborator environment whose date reader accepts everything
(returning the epoch), used where a claim is independent of date
parsing. -/
def benignEnv : ExtEnv :=
  { jsonParse := fun _ => none
    parseRfc3339 := fun _ => some 0
    now := 0 }

/-! ## Token encoder

Modelled from the spec: §4.1 `encode(rawUpstreamToken, watermarks)` - no
encoder exists under `src/` (only the decoder
`KoboSyncToken::from_request`).  Following the spec's words, the canonical
JSON object always carries `raw_kobo_store_token` and one RFC 3339 field
per present watermark, at the documented whole-second resolution, and the
token is the standard base64 of that object's serialization. -/

/-- One optional watermark member of the canonical token object. -/
def optField (key : String) (w : Option Instant) : List (String × Json) :=
  match w with
  | none => []
  | some i => [(key, Json.str (rfc3339Format i))]

/-- The watermark members of the canonical token object, in the field
order of `KoboFullTokenDetails`. -/
def tokenFields (details : KoboFullTokenDetails) : List (String × Json) :=
  optField "books_last_modified" details.books_last_modified ++
  (optField "books_last_created" details.books_last_created ++
  (optField "archive_last_modified" details.archive_last_modified ++
  (optField "reading_state_last_modified"
    details.reading_state_last_modified ++
  optField "tags_last_modified" details.tags_last_modified)))

/-- The canonical token JSON object. -/
def tokenToJson (raw_kobo_store_token : String)
    (details : KoboFullTokenDetails) : Json :=
  .obj (("raw_kobo_store_token", Json.str raw_kobo_store_token) ::
    tokenFields details)

/-- Modelled from the spec: the token encoder, base64 of the canonical
JSON object. -/
def encodeKoboSyncToken (raw_kobo_store_token : String)
    (details : KoboFullTokenDetails) : String :=
  b64EncodeStr (jsonSerialize (tokenToJson raw_kobo_store_token details))

/-! ## Concrete fixtures used by counterexamples and witnesses -/

/-- Remote item metadata with every optional field absent. -/
def emptyMeta : AbsClient.BookMetadata :=
  { title := none
    author_name := none
    series_name := none
    description := none
    language := none
    published_date := none }

/-- All-absent watermark details. -/
def noDetails : KoboFullTokenDetails :=
  { books_last_modified := none
    books_last_created := none
    archive_last_modified := none
    reading_state_last_modified := none
    tags_last_modified := none }

/-- C1 fixture: an epub item that is a candidate (`added_at` past the
cutoff of 10s) whose `updated_at` equals the `syncedAt` of its persisted
SyncRecord. -/
def c1item : AbsClient.LibraryItem :=
  { id := 7
    added_at := 20
    updated_at := 15
    media := { ebook_format := some "epub", metadata := emptyMeta } }

/-- C1 fixture: the SyncRecord for `c1item` on the requesting device, with
`syncedAt` equal to the item's `updatedAt` instant. -/
def c1record : SyncRecord :=
  { id := 1
    device_id := 2
    abs_item_id := uuidToString 7
    timestamp := timestamp_to_utc 15 }

/-- C1 fixture: a locally-minted token whose `books_last_modified`
watermark is the instant 10s. -/
def c1token : String :=
  encodeKoboSyncToken "r" { noDetails with
    books_last_modified := some (timestamp_to_utc 10) }

/-- C2 fixture: an epub item with `added_at` before and `updated_at` after
the cutoff of 10s. -/
def c2item : AbsClient.LibraryItem :=
  { id := 3
    added_at := 5
    updated_at := 20
    media := { ebook_format := some "epub", metadata := emptyMeta } }

/-- C3 fixture: an epub item whose SyncRecord is stale
(`syncedAt < updatedAt`). -/
def c3item : AbsClient.LibraryItem :=
  { id := 4
    added_at := 20
    updated_at := 25
    media := { ebook_format := some "epub", metadata := emptyMeta } }

/-- C3 fixture: the stale SyncRecord for `c3item`. -/
def c3record : SyncRecord :=
  { id := 9
    device_id := 2
    abs_item_id := uuidToString 4
    timestamp := timestamp_to_utc 15 }

/-- C4 fixture: the i-th of 101 distinct epub items. -/
def c4item (i : Nat) : AbsClient.LibraryItem :=
  { id := i
    added_at := 0
    updated_at := 0
    media := { ebook_format := some "epub", metadata := emptyMeta } }

/-- C4 fixture: a remote listing of 101 epub items, one more than
`SYNC_ITEM_LIMIT`. -/
def c4resp : AbsClient.LibraryItemsResponse :=
  { results := (List.range 101).map c4item }

/-- C8 fixture: an epub item whose `published_date` is present but is not
an RFC 3339 timestamp. -/
def c8item : AbsClient.LibraryItem :=
  { id := 5
    added_at := 1
    updated_at := 1
    media := { ebook_format := some "epub",
               metadata := { emptyMeta with
                 published_date := some "not-a-date" } } }

/-- C9 fixture: first of two items sharing the series name. -/
def c9item1 : AbsClient.LibraryItem :=
  { id := 11
    added_at := 1
    updated_at := 1
    media := { ebook_format := some "epub",
               metadata := { emptyMeta with
                 series_name := some "Discworld", title := some "A" } } }

/-- C9 fixture: second of two items sharing the series name. -/
def c9item2 : AbsClient.LibraryItem :=
  { id := 12
    added_at := 2
    updated_at := 2
    media := { ebook_format := some "epub",
               metadata := { emptyMeta with
                 series_name := some "Discworld", title := some "B" } } }

/-- C5 fixture: watermark details with two present (whole-second) fields
and three absent ones. -/
def c5details : KoboFullTokenDetails :=
  { books_last_modified := some ((1700000000 : Int) * 1000000000)
    books_last_created := none
    archive_last_modified := some ((86400 : Int) * 1000000000)
    reading_state_last_modified := none
    tags_last_modified := none }

/-! # Theorems -/

/-! ## Base64 engine facts -/

theorem b64ValOfChar_charOfVal :
    ∀ v : Nat, v < 64 → b64ValOfChar (b64CharOfVal v) = some v := by
  decide

theorem b64CharOfVal_ne_pad : ∀ v : Nat, v < 64 → b64CharOfVal v ≠ '=' := by
  decide

theorem b64CharOfVal_ne_dot : ∀ v : Nat, v < 64 → b64CharOfVal v ≠ '.' := by
  decide

/-- Decoding inverts encoding on byte lists (the `BASE64_STANDARD`
round-trip). -/
theorem b64DecodeGroups_encodeGroups (bytes : List Nat)
    (h : ∀ b ∈ bytes, b < 256) :
    b64DecodeGroups (b64EncodeGroups bytes) = some bytes := by
  induction bytes using b64EncodeGroups.induct with
  | case1 => rfl
  | case2 b1 =>
    have hb : b1 < 256 := h b1 (by simp)
    simp only [b64EncodeGroups, b64DecodeGroups,
      b64ValOfChar_charOfVal _ (by omega : b1 / 4 < 64),
      b64ValOfChar_charOfVal _ (by omega : b1 % 4 * 16 < 64)]
    simp only [if_pos rfl, and_self, reduceIte]
    rw [if_pos (by omega : b1 % 4 * 16 % 16 = 0)]
    simp only [Option.some.injEq, List.cons.injEq, and_true]
    omega
  | case3 b1 b2 =>
    have hb1 : b1 < 256 := h b1 (by simp)
    have hb2 : b2 < 256 := h b2 (by simp)
    simp only [b64EncodeGroups, b64DecodeGroups,
      b64ValOfChar_charOfVal _ (by omega : b1 / 4 < 64),
      b64ValOfChar_charOfVal _ (by omega : b1 % 4 * 16 + b2 / 16 < 64),
      b64ValOfChar_charOfVal _ (by omega : b2 % 16 * 4 < 64)]
    rw [if_neg (b64CharOfVal_ne_pad _ (by omega : b2 % 16 * 4 < 64))]
    simp only [reduceIte]
    rw [if_pos (And.intro trivial (by omega))]
    simp only [Option.some.injEq, List.cons.injEq, and_true]
    exact ⟨by omega, by omega⟩
  | case4 b1 b2 b3 rest ih =>
    have hb1 : b1 < 256 := h b1 (by simp)
    have hb2 : b2 < 256 := h b2 (by simp)
    have hb3 : b3 < 256 := h b3 (by simp)
    have hrest : ∀ b ∈ rest, b < 256 := fun b hb => h b (by simp [hb])
    simp only [b64EncodeGroups, b64DecodeGroups,
      b64ValOfChar_charOfVal _ (by omega : b1 / 4 < 64),
      b64ValOfChar_charOfVal _ (by omega : b1 % 4 * 16 + b2 / 16 < 64),
      b64ValOfChar_charOfVal _ (by omega : b2 % 16 * 4 + b3 / 64 < 64),
      b64ValOfChar_charOfVal _ (by omega : b3 % 64 < 64)]
    rw [if_neg (b64CharOfVal_ne_pad _ (by omega : b2 % 16 * 4 + b3 / 64 < 64))]
    rw [if_neg (b64CharOfVal_ne_pad _ (by omega : b3 % 64 < 64))]
    rw [ih hrest]
    simp only [Option.map_some', Option.some.injEq, List.cons.injEq, and_true]
    exact ⟨by omega, by omega, by omega⟩

theorem b64EncodeGroups_ne_dot (bytes : List Nat)
    (h : ∀ b ∈ bytes, b < 256) :
    ∀ c ∈ b64EncodeGroups bytes, c ≠ '.' := by
  induction bytes using b64EncodeGroups.induct with
  | case1 => simp [b64EncodeGroups]
  | case2 b1 =>
    have hb : b1 < 256 := h b1 (by simp)
    intro c hc
    simp only [b64EncodeGroups, List.mem_cons, List.not_mem_nil, or_false] at hc
    rcases hc with rfl | rfl | rfl | rfl
    · exact b64CharOfVal_ne_dot _ (by omega)
    · exact b64CharOfVal_ne_dot _ (by omega)
    · decide
    · decide
  | case3 b1 b2 =>
    have hb1 : b1 < 256 := h b1 (by simp)
    have hb2 : b2 < 256 := h b2 (by simp)
    intro c hc
    simp only [b64EncodeGroups, List.mem_cons, List.not_mem_nil, or_false] at hc
    rcases hc with rfl | rfl | rfl | rfl
    · exact b64CharOfVal_ne_dot _ (by omega)
    · exact b64CharOfVal_ne_dot _ (by omega)
    · exact b64CharOfVal_ne_dot _ (by omega)
    · decide
  | case4 b1 b2 b3 rest ih =>
    have hb1 : b1 < 256 := h b1 (by simp)
    have hb2 : b2 < 256 := h b2 (by simp)
    have hb3 : b3 < 256 := h b3 (by simp)
    have hrest : ∀ b ∈ rest, b < 256 := fun b hb => h b (by simp [hb])
    intro c hc
    simp only [b64EncodeGroups, List.mem_cons] at hc
    rcases hc with rfl | rfl | rfl | rfl | hc
    · exact b64CharOfVal_ne_dot _ (by omega)
    · exact b64CharOfVal_ne_dot _ (by omega)
    · exact b64CharOfVal_ne_dot _ (by omega)
    · exact b64CharOfVal_ne_dot _ (by omega)
    · exact ih hrest c hc

theorem b64DecodeStr_encodeStr (bytes : List Nat)
    (h : ∀ b ∈ bytes, b < 256) :
    b64DecodeStr (b64EncodeStr bytes) = some bytes :=
  b64DecodeGroups_encodeGroups bytes h

theorem b64EncodeStr_no_dot (bytes : List Nat) (h : ∀ b ∈ bytes, b < 256) :
    '.' ∉ (b64EncodeStr bytes).data :=
  fun hm => b64EncodeGroups_ne_dot bytes h '.' hm rfl

/-! ## Byte bounds for serialized token objects -/

theorem utf8Char_bytes_lt (c : Char) :
    ∀ b ∈ (String.utf8EncodeChar c).map UInt8.toNat, b < 256 := by
  intro b hb
  rcases List.mem_map.mp hb with ⟨u, _, rfl⟩
  exact u.toNat_lt

theorem strUtf8_lt (s : String) : ∀ b ∈ strUtf8 s, b < 256 := by
  intro b hb
  rcases List.mem_flatMap.mp hb with ⟨c, _, hc⟩
  exact utf8Char_bytes_lt c b hc

theorem hexDigit_toNat_lt : ∀ n : Nat, n < 16 → (hexDigit n).toNat < 256 := by
  decide

theorem jsonEscape_lt (s : String) : ∀ b ∈ jsonEscape s, b < 256 := by
  intro b hb
  rcases List.mem_flatMap.mp hb with ⟨c, _, hc⟩
  split at hc
  · simp at hc
    omega
  · split at hc
    · simp at hc
      omega
    · split at hc
      · simp at hc
        rcases hc with rfl | rfl | rfl | rfl | rfl | rfl <;>
          first
            | omega
            | exact hexDigit_toNat_lt _ (by omega)
      · exact utf8Char_bytes_lt c b hc

theorem jsonSerialize_str_lt (s : String) :
    ∀ b ∈ jsonSerialize (.str s), b < 256 := by
  show ∀ b ∈ 34 :: (jsonEscape s ++ [34]), b < 256
  refine List.forall_mem_cons.mpr ⟨by omega, ?_⟩
  refine List.forall_mem_append.mpr ⟨jsonEscape_lt s, ?_⟩
  intro b hb
  simp at hb
  omega

theorem memberBytes_lt (k t : String) :
    ∀ b ∈ 34 :: (jsonEscape k ++ [34, 58] ++ jsonSerialize (.str t)),
      b < 256 := by
  refine List.forall_mem_cons.mpr ⟨by omega, ?_⟩
  refine List.forall_mem_append.mpr ⟨?_, jsonSerialize_str_lt t⟩
  refine List.forall_mem_append.mpr ⟨jsonEscape_lt k, ?_⟩
  intro b hb
  simp at hb
  omega

theorem jsonSerializeMembers_lt (fields : List (String × Json))
    (hf : ∀ kv ∈ fields, ∃ t, kv.2 = Json.str t) :
    ∀ b ∈ jsonSerializeMembers fields, b < 256 := by
  induction fields with
  | nil =>
    intro b hb
    simp [jsonSerializeMembers] at hb
  | cons kv tail ih =>
    obtain ⟨k, v⟩ := kv
    obtain ⟨t, ht⟩ := hf (k, v) (by simp)
    have hv : v = Json.str t := ht
    subst hv
    cases tail with
    | nil => exact memberBytes_lt k t
    | cons kv2 tail2 =>
      show ∀ b ∈ 34 :: (jsonEscape k ++ [34, 58] ++ jsonSerialize (.str t)) ++
        44 :: jsonSerializeMembers (kv2 :: tail2), b < 256
      refine List.forall_mem_append.mpr ⟨memberBytes_lt k t, ?_⟩
      refine List.forall_mem_cons.mpr ⟨by omega, ?_⟩
      exact ih (fun kv hm => hf kv (by simp [hm]))

theorem optField_str (key : String) (w : Option Instant) :
    ∀ kv ∈ optField key w, ∃ t, kv.2 = Json.str t := by
  cases w with
  | none => simp [optField]
  | some i =>
    intro kv hkv
    simp only [optField, List.mem_singleton] at hkv
    subst hkv
    exact ⟨_, rfl⟩

theorem tokenFields_str (details : KoboFullTokenDetails) :
    ∀ kv ∈ tokenFields details, ∃ t, kv.2 = Json.str t := by
  refine List.forall_mem_append.mpr ⟨optField_str _ _, ?_⟩
  refine List.forall_mem_append.mpr ⟨optField_str _ _, ?_⟩
  refine List.forall_mem_append.mpr ⟨optField_str _ _, ?_⟩
  exact List.forall_mem_append.mpr ⟨optField_str _ _, optField_str _ _⟩

theorem tokenJson_serialize_lt (raw : String)
    (details : KoboFullTokenDetails) :
    ∀ b ∈ jsonSerialize (tokenToJson raw details), b < 256 := by
  show ∀ b ∈ 123 :: (jsonSerializeMembers
    (("raw_kobo_store_token", Json.str raw) :: tokenFields details) ++
      [125]), b < 256
  refine List.forall_mem_cons.mpr ⟨by omega, ?_⟩
  refine List.forall_mem_append.mpr ⟨?_, ?_⟩
  · refine jsonSerializeMembers_lt _ ?_
    refine List.forall_mem_cons.mpr ⟨⟨raw, rfl⟩, tokenFields_str details⟩
  · intro b hb
    simp at hb
    omega

/-! ## Token object lookups and the decode of an encoded token -/

theorem find?_optField_ne (k key : String) (w : Option Instant)
    (rest : List (String × Json)) (h : k ≠ key) :
    ((optField k w ++ rest).find? (fun kv => kv.1 == key)) =
      rest.find? (fun kv => kv.1 == key) := by
  cases w <;> simp [optField, h]

theorem find?_optField_none (k key : String) (w : Option Instant)
    (h : k ≠ key) :
    ((optField k w).find? (fun kv => kv.1 == key)) = none := by
  cases w <;> simp [optField, h]

theorem find?_optField_self (key : String) (w : Option Instant)
    (rest : List (String × Json))
    (hrest : rest.find? (fun kv => kv.1 == key) = none) :
    ((optField key w ++ rest).find? (fun kv => kv.1 == key)) =
      w.map (fun i => (key, Json.str (rfc3339Format i))) := by
  cases w <;> simp [optField, hrest]

theorem find?_cons_ne (k key : String) (v : Json)
    (rest : List (String × Json)) (h : k ≠ key) :
    (((k, v) :: rest).find? (fun kv => kv.1 == key)) =
      rest.find? (fun kv => kv.1 == key) := by
  simp [h]

theorem tokenJson_get_raw (raw : String) (details : KoboFullTokenDetails) :
    (tokenToJson raw details).get "raw_kobo_store_token" =
      some (.str raw) := by
  simp [tokenToJson, Json.get]

theorem tokenJson_get_blm (raw : String) (details : KoboFullTokenDetails) :
    (tokenToJson raw details).get "books_last_modified" =
      details.books_last_modified.map (fun i => .str (rfc3339Format i)) := by
  simp only [tokenToJson, Json.get, tokenFields]
  rw [find?_cons_ne _ _ _ _ (by decide)]
  rw [find?_optField_self _ _ _ (by
    rw [find?_optField_ne _ _ _ _ (by decide)]
    rw [find?_optField_ne _ _ _ _ (by decide)]
    rw [find?_optField_ne _ _ _ _ (by decide)]
    exact find?_optField_none _ _ _ (by decide))]
  cases details.books_last_modified <;> simp

theorem tokenJson_get_blc (raw : String) (details : KoboFullTokenDetails) :
    (tokenToJson raw details).get "books_last_created" =
      details.books_last_created.map (fun i => .str (rfc3339Format i)) := by
  simp only [tokenToJson, Json.get, tokenFields]
  rw [find?_cons_ne _ _ _ _ (by decide)]
  rw [find?_optField_ne _ _ _ _ (by decide)]
  rw [find?_optField_self _ _ _ (by
    rw [find?_optField_ne _ _ _ _ (by decide)]
    rw [find?_optField_ne _ _ _ _ (by decide)]
    exact find?_optField_none _ _ _ (by decide))]
  cases details.books_last_created <;> simp

theorem tokenJson_get_alm (raw : String) (details : KoboFullTokenDetails) :
    (tokenToJson raw details).get "archive_last_modified" =
      details.archive_last_modified.map (fun i => .str (rfc3339Format i)) := by
  simp only [tokenToJson, Json.get, tokenFields]
  rw [find?_cons_ne _ _ _ _ (by decide)]
  rw [find?_optField_ne _ _ _ _ (by decide)]
  rw [find?_optField_ne _ _ _ _ (by decide)]
  rw [find?_optField_self _ _ _ (by
    rw [find?_optField_ne _ _ _ _ (by decide)]
    exact find?_optField_none _ _ _ (by decide))]
  cases details.archive_last_modified <;> simp

theorem tokenJson_get_rslm (raw : String) (details : KoboFullTokenDetails) :
    (tokenToJson raw details).get "reading_state_last_modified" =
      details.reading_state_last_modified.map
        (fun i => .str (rfc3339Format i)) := by
  simp only [tokenToJson, Json.get, tokenFields]
  rw [find?_cons_ne _ _ _ _ (by decide)]
  rw [find?_optField_ne _ _ _ _ (by decide)]
  rw [find?_optField_ne _ _ _ _ (by decide)]
  rw [find?_optField_ne _ _ _ _ (by decide)]
  rw [find?_optField_self _ _ _ (find?_optField_none _ _ _ (by decide))]
  cases details.reading_state_last_modified <;> simp

theorem tokenJson_get_tlm (raw : String) (details : KoboFullTokenDetails) :
    (tokenToJson raw details).get "tags_last_modified" =
      details.tags_last_modified.map (fun i => .str (rfc3339Format i)) := by
  simp only [tokenToJson, Json.get, tokenFields]
  rw [find?_cons_ne _ _ _ _ (by decide)]
  rw [find?_optField_ne _ _ _ _ (by decide)]
  rw [find?_optField_ne _ _ _ _ (by decide)]
  rw [find?_optField_ne _ _ _ _ (by decide)]
  rw [find?_optField_ne _ _ _ _ (by decide)]
  rw [← List.append_nil (optField "tags_last_modified"
    details.tags_last_modified)]
  rw [find?_optField_self _ _ _ (by simp)]
  cases details.tags_last_modified <;> simp

theorem readTokenInstant_eq (env : ExtEnv) (key : String)
    (w : Option Instant) (j : Json)
    (hj : j.get key = w.map (fun i => Json.str (rfc3339Format i)))
    (hw : ∀ i, w = some i → env.parseRfc3339 (rfc3339Format i) = some i) :
    readTokenInstant env j key = w := by
  cases w with
  | none => simp [readTokenInstant, hj]
  | some i => simp [readTokenInstant, hj, Json.as_str, hw i rfl]

/-- C5: decoding the encoding of a Full token yields the token back.
For every raw upstream token and watermark set, `from_request` applied to
`encodeKoboSyncToken` returns exactly `FullToken raw details`.  The two
hypotheses are the collaborator contracts at this one document, discharged
by evaluation in the witness: serde reads back the serialized canonical
object, and chrono reads back each present watermark from its whole-second
RFC 3339 rendering (which is exactly the claim's restriction to watermarks
that are exact instants at the documented whole-second resolution). -/
theorem c5_roundtrip (env : ExtEnv) (raw : String)
    (details : KoboFullTokenDetails)
    (hjson : env.jsonParse (jsonSerialize (tokenToJson raw details)) =
      some (tokenToJson raw details))
    (hw : ∀ i : Instant,
      (details.books_last_modified = some i ∨
       details.books_last_created = some i ∨
       details.archive_last_modified = some i ∨
       details.reading_state_last_modified = some i ∨
       details.tags_last_modified = some i) →
      env.parseRfc3339 (rfc3339Format i) = some i) :
    KoboSyncToken.from_request env (encodeKoboSyncToken raw details) =
      .ok (.FullToken raw details) := by
  have hlt := tokenJson_serialize_lt raw details
  have hnodot := b64EncodeStr_no_dot _ hlt
  rw [KoboSyncToken.from_request, encodeKoboSyncToken]
  rw [if_neg (by simp [hnodot])]
  simp only [b64DecodeStr_encodeStr _ hlt, hjson, tokenJson_get_raw,
    Json.as_str, Option.bind_some]
  rw [readTokenInstant_eq env _ _ _ (tokenJson_get_blm raw details)
    (fun i hi => hw i (Or.inl hi))]
  rw [readTokenInstant_eq env _ _ _ (tokenJson_get_blc raw details)
    (fun i hi => hw i (Or.inr (Or.inl hi)))]
  rw [readTokenInstant_eq env _ _ _ (tokenJson_get_alm raw details)
    (fun i hi => hw i (Or.inr (Or.inr (Or.inl hi))))]
  rw [readTokenInstant_eq env _ _ _ (tokenJson_get_rslm raw details)
    (fun i hi => hw i (Or.inr (Or.inr (Or.inr (Or.inl hi)))))]
  rw [readTokenInstant_eq env _ _ _ (tokenJson_get_tlm raw details)
    (fun i hi => hw i (Or.inr (Or.inr (Or.inr (Or.inr hi)))))]
  simp

set_option maxRecDepth 40000 in
/-- Witness for C5 at a concrete token: raw token `"r"`, two present
whole-second watermarks, three absent ones, with the concrete reference
codecs. -/
theorem c5_roundtrip_witness :
    KoboSyncToken.from_request (refEnv 0)
        (encodeKoboSyncToken "r" c5details) =
      .ok (.FullToken "r" c5details) := by
  refine c5_roundtrip (refEnv 0) "r" c5details (by rfl) ?_
  intro i hi
  rcases hi with h | h | h | h | h <;> simp [c5details] at h <;> subst h <;> rfl

/-- C6: a sync-token header without a literal dot that is bad base64 or
whose decoded bytes are not a JSON document makes `from_request` fail with
a decode error, and `sync` surfaces that failure as the 403 `Forbidden`
response carrying an error message - it is not swallowed. -/
theorem c6_decode_error_forbidden (env : ExtEnv) (auth_token token : String)
    (absResult : Except String AbsClient.LibraryItemsResponse)
    (hdot : '.' ∉ token.data)
    (hfail : b64DecodeStr token = none ∨
      ∃ bytes, b64DecodeStr token = some bytes ∧ env.jsonParse bytes = none) :
    ∃ e : TokenError,
      KoboSyncToken.from_request env token = .error e ∧
      sync env auth_token token absResult =
        some (.Forbidden
          { message := "Invalid Kobo Sync Token: " ++ e.message }) := by
  have hfr : KoboSyncToken.from_request env token =
      .error .invalidFormat ∨
      KoboSyncToken.from_request env token = .error .invalidJson := by
    rw [KoboSyncToken.from_request, if_neg (by simp [hdot])]
    rcases hfail with h | ⟨bytes, h1, h2⟩
    · rw [h]
      exact Or.inl rfl
    · simp only [h1, h2]
      exact Or.inr trivial
  rcases hfr with h | h
  · exact ⟨.invalidFormat, h, by rw [sync, h]⟩
  · exact ⟨.invalidJson, h, by rw [sync, h]⟩

/-- Witness for C6: the header `"!!!"` contains no dot and is not valid
base64; the concrete environment rejects it and sync answers 403. -/
theorem c6_decode_error_forbidden_witness :
    ∃ e : TokenError,
      KoboSyncToken.from_request (refEnv 0) "!!!" = .error e ∧
      sync (refEnv 0) "auth" "!!!" (.ok { results := [] }) =
        some (.Forbidden
          { message := "Invalid Kobo Sync Token: " ++ e.message }) :=
  c6_decode_error_forbidden (refEnv 0) "auth" "!!!" (.ok { results := [] })
    (by decide) (Or.inl rfl)

/-- C7: a sync-token header containing a literal dot always decodes to
`OnlyRawToken` carrying the string verbatim, and the result does not
depend on the JSON/date codecs at all (the base64/JSON path is never
attempted), so such a header can never yield a decode error, a Full
token, or an absent token. -/
theorem c7_dot_token_raw_only (env env2 : ExtEnv) (token : String)
    (hdot : '.' ∈ token.data) :
    KoboSyncToken.from_request env token = .ok (.OnlyRawToken token) ∧
    KoboSyncToken.from_request env token =
      KoboSyncToken.from_request env2 token := by
  have h : ∀ e : ExtEnv, KoboSyncToken.from_request e token =
      .ok (.OnlyRawToken token) := by
    intro e
    rw [KoboSyncToken.from_request, if_pos (by simp [hdot])]
  exact ⟨h env, (h env).trans (h env2).symm⟩

/-- Witness for C7 at the vendor-style header `"a.b"`, with the concrete
codec environment against a degenerate one. -/
theorem c7_dot_token_raw_only_witness :
    KoboSyncToken.from_request (refEnv 0) "a.b" =
        .ok (.OnlyRawToken "a.b") ∧
    KoboSyncToken.from_request (refEnv 0) "a.b" =
      KoboSyncToken.from_request benignEnv "a.b" :=
  c7_dot_token_raw_only (refEnv 0) benignEnv "a.b" (by decide)

/-- C10: the sync response is identical for any two device auth-token
values, all else (token header, remote listing outcome, collaborator
environment) equal: the auth token is never consulted, so there is in
particular no missing-auth-401 behaviour distinct from the sync-token
check. -/
theorem c10_sync_ignores_auth_token (env : ExtEnv)
    (auth_token1 auth_token2 raw_kobo_sync_token : String)
    (absResult : Except String AbsClient.LibraryItemsResponse) :
    sync env auth_token1 raw_kobo_sync_token absResult =
      sync env auth_token2 raw_kobo_sync_token absResult := rfl

/-! ## The sync pipeline: helper lemmas and claims C1-C4, C8, C9 -/

theorem from_request_dot (env : ExtEnv) (token : String)
    (hdot : '.' ∈ token.data) :
    KoboSyncToken.from_request env token = .ok (.OnlyRawToken token) := by
  rw [KoboSyncToken.from_request, if_pos (by simp [hdot])]

theorem sync_raw_only (env : ExtEnv) (auth raw : String)
    (absResult : Except String AbsClient.LibraryItemsResponse)
    (hdot : '.' ∈ raw.data) :
    sync env auth raw absResult = syncProceed env auth noDetails absResult := by
  rw [sync, from_request_dot env raw hdot]
  rfl

theorem mapBook_book_id (env : ExtEnv) (item : AbsClient.LibraryItem)
    (b : KoboSyncedBook) (h : mapBook env item = some b) :
    b.book_entitlement.id = item.id := by
  rw [mapBook] at h
  rcases hp : env.parseRfc3339
      (item.media.metadata.published_date.getD epochRfc3339) with _ | pd
  · rw [hp] at h
    cases h
  · rw [hp] at h
    cases h
    rfl

theorem mapBook_series_id (env : ExtEnv) (item : AbsClient.LibraryItem)
    (b : KoboSyncedBook) (h : mapBook env item = some b) :
    b.book_metadata.series.id =
      seriesUuidOfName (item.media.metadata.series_name.getD "") := by
  rw [mapBook] at h
  rcases hp : env.parseRfc3339
      (item.media.metadata.published_date.getD epochRfc3339) with _ | pd
  · rw [hp] at h
    cases h
  · rw [hp] at h
    cases h
    rfl

theorem mapBook_isSome (env : ExtEnv) (item : AbsClient.LibraryItem)
    (htotal : ∀ s, (env.parseRfc3339 s).isSome) :
    (mapBook env item).isSome = true := by
  rw [mapBook]
  have := htotal (item.media.metadata.published_date.getD epochRfc3339)
  rcases hp : env.parseRfc3339
      (item.media.metadata.published_date.getD epochRfc3339) with _ | pd
  · rw [hp] at this
    cases this
  · rfl

theorem mapM_mapBook_isSome (env : ExtEnv)
    (htotal : ∀ s, (env.parseRfc3339 s).isSome) :
    ∀ l : List AbsClient.LibraryItem,
      (l.mapM (mapBook env)).isSome = true := by
  intro l
  induction l with
  | nil => rfl
  | cons a l ih =>
    rw [List.mapM_cons]
    have ha := mapBook_isSome env a htotal
    rcases hb : mapBook env a with _ | b
    · rw [hb] at ha
      cases ha
    · rcases hl : l.mapM (mapBook env) with _ | bs
      · rw [hl] at ih
        cases ih
      · simp [hb, hl]

theorem mapM_mapBook_ids (env : ExtEnv) :
    ∀ (l : List AbsClient.LibraryItem) (books : List KoboSyncedBook),
      l.mapM (mapBook env) = some books →
      books.map (fun b => b.book_entitlement.id) = l.map (·.id) := by
  intro l
  induction l with
  | nil =>
    intro books h
    cases h
    rfl
  | cons a l ih =>
    intro books h
    rw [List.mapM_cons] at h
    rcases hb : mapBook env a with _ | b
    · rw [hb] at h
      cases h
    · rw [hb] at h
      rcases hl : l.mapM (mapBook env) with _ | bs
      · rw [hl] at h
        cases h
      · rw [hl] at h
        cases h
        simp only [List.map_cons]
        rw [mapBook_book_id env a b hb, ih bs hl]



theorem syncProceed_shape (env : ExtEnv) (auth : String)
    (details : KoboFullTokenDetails)
    (absResult : Except String AbsClient.LibraryItemsResponse)
    (ents : List KoboSyncEntitlement) (t c m : Option String)
    (h : syncProceed env auth details absResult = some (.Ok ents t c m)) :
    t = none ∧ c = none ∧ m = none ∧
      ∃ sync_results books,
        collect_all_books auth details.books_last_modified absResult =
          .ok sync_results ∧
        sync_results.mapM (mapBook env) = some books ∧
        ents = books.map (fun b => KoboSyncEntitlement.NewEntitlement b) := by
  rw [syncProceed, if_neg (show ¬(false = true) by decide)] at h
  split at h
  · simp at h
  · rename_i sync_results hcollect
    split at h
    · cases h
    · rename_i books hbooks
      cases h
      exact ⟨rfl, rfl, rfl, sync_results, books, hcollect, hbooks, rfl⟩


theorem collect_all_books_no_watermark (auth : String)
    (resp : AbsClient.LibraryItemsResponse) :
    collect_all_books auth none (.ok resp) =
      .ok (resp.results.filter
        (fun item => item.media.ebook_format == some "epub")) := rfl

theorem syncProceed_noDetails (env : ExtEnv) (auth : String)
    (resp : AbsClient.LibraryItemsResponse) :
    syncProceed env auth noDetails (.ok resp) =
      match (resp.results.filter
          (fun item => item.media.ebook_format == some "epub")).mapM
          (mapBook env) with
      | none => none
      | some books =>
        some (.Ok (books.map (fun b => KoboSyncEntitlement.NewEntitlement b))
          none none none) := rfl

/-- C1 [corrected]: `SyncService::sync` never consults SyncRecords.  For an
arbitrary persisted record set `records` (quantified to make the
independence explicit - the result does not mention it), a raw-only token
and a date reader that does not panic, the emitted entitlement ids are
exactly the ids of ALL collected epub items; in particular an item whose
record has `syncedAt >= updatedAt` is still emitted. -/
theorem c1_sync_records_ignored (env : ExtEnv) (auth raw : String)
    (resp : AbsClient.LibraryItemsResponse) (records : List SyncRecord)
    (hdot : '.' ∈ raw.data)
    (htotal : ∀ s, (env.parseRfc3339 s).isSome) :
    (syncOkEntitlements (sync env auth raw (.ok resp))).map
        (List.map entItemId) =
      some ((resp.results.filter
        (fun item => item.media.ebook_format == some "epub")).map (·.id)) := by
  rw [sync_raw_only env auth raw _ hdot, syncProceed_noDetails]
  have hsome := mapM_mapBook_isSome env htotal
    (resp.results.filter (fun item => item.media.ebook_format == some "epub"))
  rcases hM : (resp.results.filter
      (fun item => item.media.ebook_format == some "epub")).mapM
      (mapBook env) with _ | books
  · rw [hM] at hsome
    cases hsome
  · rw [hM]
    simp only [syncOkEntitlements, Option.map_some', List.map_map]
    rw [show (entItemId ∘ fun b => KoboSyncEntitlement.NewEntitlement b) =
      (fun b => b.book_entitlement.id) from rfl]
    rw [mapM_mapBook_ids env _ books hM]

/-- Witness for C1 [corrected] at a concrete item with a concrete
up-to-date SyncRecord posited. -/
theorem c1_sync_records_ignored_witness :
    (syncOkEntitlements (sync benignEnv "auth" "a.b"
        (.ok { results := [c1item] }))).map (List.map entItemId) =
      some (((({ results := [c1item] } :
        AbsClient.LibraryItemsResponse)).results.filter
        (fun item => item.media.ebook_format == some "epub")).map (·.id)) :=
  c1_sync_records_ignored benignEnv "auth" "a.b" _ [c1record] (by decide)
    (fun _ => rfl)

set_option maxRecDepth 40000 in
/-- C1 counterexample: `c1item` is a candidate (its `addedAt` of 20s is
past the decoded token's 10s `booksLastModified` cutoff) and its persisted
SyncRecord `c1record` has `syncedAt` equal to the item's `updatedAt`
instant, so the claim requires the item to be excluded - yet the sync
response emits an entitlement for it. -/
theorem c1_counterexample :
    c1record.abs_item_id = uuidToString c1item.id ∧
    timestamp_to_utc c1item.updated_at ≤ c1record.timestamp ∧
    KoboSyncToken.from_request (refEnv 0) c1token =
      .ok (.FullToken "r" { noDetails with
        books_last_modified := some (timestamp_to_utc 10) }) ∧
    timestamp_to_utc 10 < timestamp_to_utc c1item.added_at ∧
    (syncOkEntitlements (sync (refEnv 0) "auth" c1token
        (.ok { results := [c1item] }))).map (List.map entItemId) =
      some [c1item.id] := by
  refine ⟨rfl, by decide, by rfl, by decide, by rfl⟩

/-- C2 counterexample: `c2item` is an epub item with
`updatedAt > cutoff` (20s > 10s), so the claim makes it a candidate, but
`collect_all_books` drops it because only `addedAt` (5s) is compared
against the watermark. -/
theorem c2_counterexample :
    c2item.media.ebook_format = some "epub" ∧
    timestamp_to_utc 10 < timestamp_to_utc c2item.updated_at ∧
    collect_all_books "auth" (some (timestamp_to_utc 10))
      (.ok { results := [c2item] }) = .ok [] := by
  refine ⟨rfl, by decide, by rfl⟩

/-- C2 [corrected]: an item participates in the sync diff exactly when its
`ebookFormat` is literally `"epub"` and, whenever the `booksLastModified`
watermark is present, its `addedAt` instant is strictly past it
(`updatedAt` is never consulted, and an absent watermark admits every epub
item rather than acting as an epoch cutoff). -/
theorem c2_candidate_characterization (auth : String) (lm : Option Instant)
    (resp : AbsClient.LibraryItemsResponse) (item : AbsClient.LibraryItem) :
    item ∈ (collect_all_books auth lm (.ok resp)).toOption.getD [] ↔
      item ∈ resp.results ∧ item.media.ebook_format = some "epub" ∧
        ∀ l, lm = some l → l < timestamp_to_utc item.added_at := by
  rw [collect_all_books]
  cases lm with
  | none =>
    simp [Except.toOption, List.mem_filter, timestamp_to_utc, and_comm]
  | some l =>
    simp [Except.toOption, List.mem_filter, timestamp_to_utc]
    exact fun _ => and_comm

theorem map_entKind_new (books : List KoboSyncedBook) :
    books.map (entKind ∘ fun b => KoboSyncEntitlement.NewEntitlement b) =
      List.replicate books.length EntKind.new := by
  induction books with
  | nil => rfl
  | cons b bs ih => simp [ih, List.replicate_succ, entKind]

/-- C3 [corrected]: every entitlement a successful sync response carries is
the `NewEntitlement` variant, regardless of any SyncRecord state - the
`ChangedEntitlement` variant is never produced. -/
theorem c3_every_emitted_is_new (env : ExtEnv) (auth raw : String)
    (absResult : Except String AbsClient.LibraryItemsResponse)
    (ents : List KoboSyncEntitlement) (t c m : Option String)
    (h : sync env auth raw absResult = some (.Ok ents t c m)) :
    ents.map entKind = List.replicate ents.length EntKind.new := by
  rw [sync] at h
  split at h
  · simp at h
  · simp at h
  · obtain ⟨-, -, -, sync_results, books, -, -, rfl⟩ :=
      syncProceed_shape _ _ _ _ _ _ _ _ h
    simp only [List.map_map, List.length_map]
    exact map_entKind_new books
  · obtain ⟨-, -, -, sync_results, books, -, -, rfl⟩ :=
      syncProceed_shape _ _ _ _ _ _ _ _ h
    simp only [List.map_map, List.length_map]
    exact map_entKind_new books

/-- C3 counterexample: `c3item` has a stale SyncRecord
(`syncedAt < updatedAt`), so the claim classifies it `Updated` and requires
`ChangedEntitlement`; the response emits it as `NewEntitlement`. -/
theorem c3_counterexample :
    c3record.abs_item_id = uuidToString c3item.id ∧
    c3record.timestamp < timestamp_to_utc c3item.updated_at ∧
    (syncOkEntitlements (sync benignEnv "auth" "a.b"
        (.ok { results := [c3item] }))).map (List.map entKind) =
      some [EntKind.new] := by
  refine ⟨rfl, by decide, by rfl⟩

/-- Witness for C3 at a concrete two-item sync: the emitted kinds all
equal `new`. -/
theorem c3_every_emitted_is_new_witness :
    (syncOkEntitlements (sync benignEnv "auth" "a.b"
        (.ok { results := [c3item, c1item] }))).map
      (fun l => l.map entKind == List.replicate l.length EntKind.new) =
      some true := by
  have hOk : (syncOkEntitlements (sync benignEnv "auth" "a.b"
      (.ok { results := [c3item, c1item] }))).isSome = true := rfl
  rcases hS : sync benignEnv "auth" "a.b" (.ok { results := [c3item, c1item] })
    with _ | r
  · rw [hS] at hOk
    simp [syncOkEntitlements] at hOk
  · cases r with
    | Ok ents t c m =>
      have h := c3_every_emitted_is_new benignEnv "auth" "a.b" _ ents t c m hS
      simp [syncOkEntitlements, h]
    | Unauthorized b =>
      rw [hS] at hOk
      simp [syncOkEntitlements] at hOk
    | Forbidden b =>
      rw [hS] at hOk
      simp [syncOkEntitlements] at hOk
    | BadGateway b =>
      rw [hS] at hOk
      simp [syncOkEntitlements] at hOk

/-- C4 counterexample: with 101 eligible candidates - one more than
`SYNC_ITEM_LIMIT` = 100 - the successful response still carries all 101
entitlements and its sync-continue header (`X-Kobo-Sync`) is absent, not
forced to a continue value. -/
theorem c4_counterexample :
    SYNC_ITEM_LIMIT = 100 ∧
    (syncOkEntitlements (sync benignEnv "auth" "a.b" (.ok c4resp))).map
        List.length = some 101 ∧
    syncContinueHeader (sync benignEnv "auth" "a.b" (.ok c4resp)) =
      some none := by
  refine ⟨rfl, by rfl, by rfl⟩

/-- C4 [corrected]: `SYNC_ITEM_LIMIT` is declared but never applied: for a
raw-only token and a panic-free date reader, the successful response
carries one entitlement per collected epub item (no truncation) and every
control header, including sync-continue, is `None`; no upstream value is
consulted. -/
theorem c4_no_cap_no_continue (env : ExtEnv) (auth raw : String)
    (resp : AbsClient.LibraryItemsResponse)
    (hdot : '.' ∈ raw.data)
    (htotal : ∀ s, (env.parseRfc3339 s).isSome) :
    ∃ ents, sync env auth raw (.ok resp) =
        some (.Ok ents none none none) ∧
      ents.length = (resp.results.filter
        (fun item => item.media.ebook_format == some "epub")).length := by
  rw [sync_raw_only env auth raw _ hdot, syncProceed_noDetails]
  have hsome := mapM_mapBook_isSome env htotal
    (resp.results.filter (fun item => item.media.ebook_format == some "epub"))
  rcases hM : (resp.results.filter
      (fun item => item.media.ebook_format == some "epub")).mapM
      (mapBook env) with _ | books
  · rw [hM] at hsome
    cases hsome
  · rw [hM]
    refine ⟨_, rfl, ?_⟩
    have hids := mapM_mapBook_ids env _ books hM
    have := congrArg List.length hids
    simpa using this

/-- Witness for C4 [corrected] at the 101-item listing. -/
theorem c4_no_cap_no_continue_witness :
    ∃ ents, sync benignEnv "auth" "a.b" (.ok c4resp) =
        some (.Ok ents none none none) ∧
      ents.length = (c4resp.results.filter
        (fun item => item.media.ebook_format == some "epub")).length :=
  c4_no_cap_no_continue benignEnv "auth" "a.b" c4resp (by decide)
    (fun _ => rfl)

/-- C8 [code_bug]: a single item whose `published_date` is present but not
RFC 3339 parsable makes the whole sync panic
(`DateTime::parse_from_rfc3339(..).unwrap()`), modelled as the `none`
outcome - instead of substituting the epoch or skipping the item as the
claim requires. -/
theorem c8_unparsable_date_panics (env : ExtEnv) (auth : String)
    (hbad : env.parseRfc3339 "not-a-date" = none) :
    sync env auth "a.b" (.ok { results := [c8item] }) = none := by
  rw [sync_raw_only env auth "a.b" _ (by decide), syncProceed_noDetails]
  have hfilter : ({ results := [c8item] } :
      AbsClient.LibraryItemsResponse).results.filter
      (fun item => item.media.ebook_format == some "epub") = [c8item] := rfl
  rw [hfilter]
  have hmB : mapBook env c8item = none := by
    rw [mapBook]
    rw [show c8item.media.metadata.published_date.getD epochRfc3339 =
      "not-a-date" from rfl]
    rw [hbad]
  rw [List.mapM_cons]
  simp [hmB]

/-- Witness for C8 with the concrete chrono reference reader rejecting
`"not-a-date"`. -/
theorem c8_unparsable_date_panics_witness :
    sync (refEnv 0) "auth" "a.b" (.ok { results := [c8item] }) = none :=
  c8_unparsable_date_panics (refEnv 0) "auth" rfl

theorem leBytes_lt (n k : Nat) : ∀ b ∈ leBytes n k, b < 256 := by
  intro b hb
  rcases List.mem_map.mp hb with ⟨i, -, rfl⟩
  exact Nat.mod_lt _ (by norm_num)

theorem md5Bytes_lt (msg : List Nat) : ∀ b ∈ md5Bytes msg, b < 256 := by
  rw [md5Bytes]
  rcases md5Blocks (0x67452301, 0xefcdab89, 0x98badcfe, 0x10325476)
    (md5Pad msg) with ⟨a, b, c, d⟩
  refine List.forall_mem_append.mpr ⟨?_, leBytes_lt _ _⟩
  refine List.forall_mem_append.mpr ⟨?_, leBytes_lt _ _⟩
  exact List.forall_mem_append.mpr ⟨leBytes_lt _ _, leBytes_lt _ _⟩

theorem md5Bytes_length (msg : List Nat) : (md5Bytes msg).length = 16 := by
  rw [md5Bytes]
  rcases md5Blocks (0x67452301, 0xefcdab89, 0x98badcfe, 0x10325476)
    (md5Pad msg) with ⟨a, b, c, d⟩
  simp [leBytes]

theorem foldl_bytes_lt (bytes : List Nat) :
    ∀ acc : Nat, (∀ b ∈ bytes, b < 256) →
      bytes.foldl (fun a b => a * 256 + b) acc <
        (acc + 1) * 256 ^ bytes.length := by
  induction bytes with
  | nil =>
    intro acc _
    simp
  | cons b bs ih =>
    intro acc h
    have hb : b < 256 := h b (by simp)
    have hbs : ∀ x ∈ bs, x < 256 := fun x hx => h x (by simp [hx])
    calc (b :: bs).foldl (fun a x => a * 256 + x) acc
        = bs.foldl (fun a x => a * 256 + x) (acc * 256 + b) := by
          simp [List.foldl_cons]
      _ < (acc * 256 + b + 1) * 256 ^ bs.length := ih (acc * 256 + b) hbs
      _ ≤ (acc + 1) * 256 ^ (b :: bs).length := by
          simp only [List.length_cons, pow_succ]
          have : acc * 256 + b + 1 ≤ (acc + 1) * 256 := by omega
          calc (acc * 256 + b + 1) * 256 ^ bs.length
              ≤ (acc + 1) * 256 * 256 ^ bs.length :=
                Nat.mul_le_mul_right _ this
            _ = (acc + 1) * (256 ^ bs.length * 256) := by ring

theorem bytesToNatBE_lt (bytes : List Nat) (h : ∀ b ∈ bytes, b < 256) :
    bytesToNatBE bytes < 256 ^ bytes.length := by
  have := foldl_bytes_lt bytes 0 h
  simpa [bytesToNatBE] using this

theorem uuidSetVersion3_lt (h : Nat) (hh : h < 2 ^ 128) :
    uuidSetVersion3 h < 2 ^ 128 := by
  have hq : h / 2 ^ 80 < 2 ^ 48 := by
    apply Nat.div_lt_of_lt_mul
    calc h < 2 ^ 128 := hh
      _ = 2 ^ 48 * 2 ^ 80 := by norm_num
  have hr : h % 2 ^ 76 < 2 ^ 76 := Nat.mod_lt _ (by norm_num)
  rw [uuidSetVersion3]
  have h80 : (2 : Nat) ^ 80 = 1208925819614629174706176 := by norm_num
  have h76 : (2 : Nat) ^ 76 = 75557863725914323419136 := by norm_num
  have h48 : (2 : Nat) ^ 48 = 281474976710656 := by norm_num
  have h128 : (2 : Nat) ^ 128 = 340282366920938463463374607431768211456 := by
    norm_num
  rw [h80, h76, h128]
  rw [h80, h48] at hq
  rw [h76] at hr
  omega

theorem uuidSetVariantRfc4122_lt (h : Nat) (hh : h < 2 ^ 128) :
    uuidSetVariantRfc4122 h < 2 ^ 128 := by
  have hq : h / 2 ^ 64 < 2 ^ 64 := by
    apply Nat.div_lt_of_lt_mul
    calc h < 2 ^ 128 := hh
      _ = 2 ^ 64 * 2 ^ 64 := by norm_num
  have hr : h % 2 ^ 62 < 2 ^ 62 := Nat.mod_lt _ (by norm_num)
  rw [uuidSetVariantRfc4122]
  have h64 : (2 : Nat) ^ 64 = 18446744073709551616 := by norm_num
  have h62 : (2 : Nat) ^ 62 = 4611686018427387904 := by norm_num
  have h128 : (2 : Nat) ^ 128 = 340282366920938463463374607431768211456 := by
    norm_num
  rw [h64, h62, h128]
  rw [h64] at hq
  rw [h62] at hr
  omega

theorem seriesUuidOfName_lt (name : String) :
    seriesUuidOfName name < 2 ^ 128 := by
  rw [seriesUuidOfName, uuidNewV3]
  apply uuidSetVariantRfc4122_lt
  apply uuidSetVersion3_lt
  have hlt := bytesToNatBE_lt
    (md5Bytes (natToBytesBE16 NAMESPACE_DNS ++ strUtf8 name))
    (md5Bytes_lt _)
  rw [md5Bytes_length] at hlt
  calc bytesToNatBE (md5Bytes (natToBytesBE16 NAMESPACE_DNS ++ strUtf8 name))
      < 256 ^ 16 := hlt
    _ = 2 ^ 128 := by norm_num

/-- C9 [corrected, the part that holds]: the derived series id of an
emitted book is exactly the namespace-DNS v3 UUID of the series name
string, so any two items with the same series name receive the same id -
across items and across syncs, since the derivation reads nothing else. -/
theorem c9_series_id_deterministic (env : ExtEnv)
    (item1 item2 : AbsClient.LibraryItem) (b1 b2 : KoboSyncedBook)
    (hname : item1.media.metadata.series_name =
      item2.media.metadata.series_name)
    (h1 : mapBook env item1 = some b1) (h2 : mapBook env item2 = some b2) :
    b1.book_metadata.series.id =
      seriesUuidOfName (item1.media.metadata.series_name.getD "") ∧
    b1.book_metadata.series.id = b2.book_metadata.series.id := by
  have e1 := mapBook_series_id env item1 b1 h1
  have e2 := mapBook_series_id env item2 b2 h2
  refine ⟨e1, ?_⟩
  rw [e1, e2, hname]

/-- Witness for C9 determinism at two concrete items sharing the series
name `"Discworld"`. -/
theorem c9_series_id_deterministic_witness :
    (mapBook (refEnv 0) c9item1).map (fun b => b.book_metadata.series.id) =
      (mapBook (refEnv 0) c9item2).map (fun b => b.book_metadata.series.id) := by
  have hs1 : (mapBook (refEnv 0) c9item1).isSome = true := rfl
  have hs2 : (mapBook (refEnv 0) c9item2).isSome = true := rfl
  rcases h1 : mapBook (refEnv 0) c9item1 with _ | b1
  · rw [h1] at hs1
    cases hs1
  · rcases h2 : mapBook (refEnv 0) c9item2 with _ | b2
    · rw [h2] at hs2
      cases hs2
    · have h := c9_series_id_deterministic (refEnv 0) c9item1 c9item2 b1 b2
        rfl h1 h2
      simp [h.2]

/-- C9 counterexample (negation of the claim's injectivity half): the
derivation maps the infinitely many series names into the finite 128-bit
UUID space, so two distinct names with the same derived id exist - distinct
names are not guaranteed distinct ids. -/
theorem c9_counterexample :
    ¬ ∀ n1 n2 : String, n1 ≠ n2 →
        seriesUuidOfName n1 ≠ seriesUuidOfName n2 := by
  intro hinj
  have hInf : Infinite String := Infinite.of_injective
    (fun n : Nat => String.mk (List.replicate n 'a'))
    (fun a b h => by simpa using congrArg (fun s => s.data.length) h)
  obtain ⟨x, y, hxy, heq⟩ := Finite.exists_ne_map_eq_of_infinite
    (fun n : String =>
      (⟨seriesUuidOfName n, seriesUuidOfName_lt n⟩ : Fin (2 ^ 128)))
  exact hinj x y hxy (by simpa using congrArg Fin.val heq)

end AbsKoboSync
